import Mathlib

/-!
Verification of the `zig-stack-vm` Python binding (`src/bindings/python/libstackvm.py`)
against its natural-language specification.

The binding marshals values across a ctypes boundary into a native stack
virtual machine.  The Python-side logic (dispatch in `Value.init`,
`Value.value`, `Stack.push`/`Stack.store`, the diagnostic accessors, and
`Parser.parse`/`VirtualMachine.execute` wrappers) is embedded directly from
the source.  The native library itself is not part of the source tree, so the
foreign functions (`stackvm_value_int`, `stackvm_stack_push_int`,
`stackvm_sourcemap_find`, the execution loop, ...) are modelled from the
specification's description of their contracts; every such definition is
marked `Modelled from the spec:` in its doc comment.

Machine integers are represented as mathematical integers with explicit
reduction: a `c_uint8` field is a `Nat` reduced mod 256, a `c_int32` an `Int`
in two's-complement range, and the 8-byte value union is represented by its
64-bit content `bits` (a `Nat` reduced mod 2^64).  A `c_double` payload is
carried purely as its 64-bit pattern — the binding never performs float
arithmetic, it only moves the payload across the boundary.
-/

namespace StackVM

/-- 2^32, the modulus of a `c_uint32` / `c_int32` payload. -/
def two32 : Nat := 4294967296

/-- 2^64, the modulus of a `c_size_t` / union payload on the 64-bit target. -/
def two64 : Nat := 18446744073709551615 + 1

/-- Interpret a 32-bit pattern (a `Nat` below 2^32) as a two's-complement
signed `c_int32`. -/
def toInt32 (n : Nat) : Int :=
  if n < 2147483648 then (n : Int) else (n : Int) - (two32 : Int)

/-- The 32-bit pattern of a signed integer, as `c_int32` marshalling
produces it (wrap-around mod 2^32). -/
def uint32pattern (i : Int) : Nat :=
  (i % (two32 : Int)).toNat

/- `ValueType` enumeration from the binding (`enum.IntEnum`, values 0..6). -/
namespace ValueType

def NONE : Nat := 0
def INTEGER : Nat := 1
def FLOAT : Nat := 2
def ADDRESS_HEAP : Nat := 3
def ADDRESS_STRING : Nat := 4
def ADDRESS_CODE : Nat := 5
def ADDRESS_STACK : Nat := 6

end ValueType

/-- The C `Value` struct of the binding: a `c_uint8` kind byte and an 8-byte
payload union (`c_int32` / `c_double` / `c_size_t` overlaid).  The union is
represented by its 64-bit content `bits`; each ctypes field read is a view of
`bits`. -/
structure Value where
  kind : Nat
  bits : Nat
  deriving Repr, DecidableEq

/-- Reading the union's `integer` field (`c_int32`): the low 32 bits of the
union, two's-complement signed. -/
def Value.readInteger (v : Value) : Int :=
  toInt32 (v.bits % two32)

/-- Reading the union's `float` field (`c_double`): the 64-bit pattern. -/
def Value.readFloat (v : Value) : Nat :=
  v.bits % two64

/-- Reading the union's `size` field (`c_size_t`): the 64 bits as an
unsigned integer. -/
def Value.readSize (v : Value) : Nat :=
  v.bits % two64

/-- Modelled from the spec: `stackvm_value_int` (missing native code) —
"Integer and Float each have a dedicated constructor taking a native-width
parameter."  Builds a Value with the Integer kind tag and the given
`c_int32` payload. -/
def stackvm_value_int (i : Int) : Value :=
  { kind := ValueType.INTEGER, bits := uint32pattern i }

/-- Modelled from the spec: `stackvm_value_float` (missing native code) —
the dedicated Float constructor; the `c_double` parameter is carried as its
64-bit pattern. -/
def stackvm_value_float (bits : Nat) : Value :=
  { kind := ValueType.FLOAT, bits := bits % two64 }

/-- Modelled from the spec: `stackvm_value_size` (missing native code) —
"All four Address kinds share one constructor parameterized by an explicit
kind tag plus a size_t payload."  The kind tag is a `c_uint8`. -/
def stackvm_value_size (kind : Nat) (n : Nat) : Value :=
  { kind := kind % 256, bits := n % two64 }

/-- A numeric Python object produced by reading a ctypes field: an `int`
(from the `integer` or `size` field) or a `float` (from the `float` field,
carried as its bit pattern). -/
inductive PyNumber where
  | int (i : Int)
  | float (bits : Nat)
  deriving Repr, DecidableEq

/-- The `Value.value` property of the binding (source lines 281-288):

    if ValueType.INTEGER == self.kind: return self._value.integer
    elif ValueType.FLOAT == self.kind: return self._value.float
    else: return self._value.size

A total function: every kind byte, including NONE, takes one of the three
branches. -/
def Value.value (v : Value) : PyNumber :=
  if v.kind = ValueType.INTEGER then .int v.readInteger
  else if v.kind = ValueType.FLOAT then .float v.readFloat
  else .int (v.readSize : Int)

/-- The `Value.init` static method of the binding (source lines 270-279):

    if type == ValueType.NONE: raise Exception("Cannot create value of type NONE")
    elif type == ValueType.INTEGER: return lib.stackvm_value_int(value)
    elif type == ValueType.FLOAT: return lib.stackvm_value_float(value)
    else: return lib.stackvm_value_size(type, value)

The payload argument is represented by the 64-bit pattern its ctypes
marshalling yields in the branch taken. -/
def Value.init (type : Nat) (value : Nat) : Except String Value :=
  if type = ValueType.NONE then
    .error "Cannot create value of type NONE"
  else if type = ValueType.INTEGER then
    .ok (stackvm_value_int (toInt32 (value % two32)))
  else if type = ValueType.FLOAT then
    .ok (stackvm_value_float value)
  else
    .ok (stackvm_value_size type value)

/-! ## Stack: foreign entry points and the binding's dispatch

The binding's `Stack` methods marshal a tagged `Value` across the boundary by
dispatching on the kind byte to kind-specialized foreign functions.  We record
the foreign calls a method issues as a trace (`FFICall`), and give the native
side's effect on the operand stack (a `List Value`) as a spec-modelled
interpreter of those calls. -/

/-- A foreign call into the native stack API, with its marshalled
arguments.  `stack_store` is the generic entry point declared at source line
305 (first `store` definition); the remaining constructors are the
kind-specialized entry points. -/
inductive FFICall where
  | stack_store (index : Nat) (kind : Nat) (bits : Nat)
  | stack_store_int (index : Nat) (i : Int)
  | stack_store_float (index : Nat) (bits : Nat)
  | stack_store_address (index : Nat) (kind : Nat) (n : Nat)
  | stack_push_int (i : Int)
  | stack_push_float (bits : Nat)
  | stack_push_address (kind : Nat) (n : Nat)
  deriving Repr, DecidableEq

/-- Whether a foreign call is the generic `stackvm_stack_store`. -/
def FFICall.isGenericStore : FFICall → Bool
  | .stack_store _ _ _ => true
  | _ => false

/-- The FIRST `Stack.store` definition in the class body (source lines
304-305): `lib.stackvm_stack_store(self.vm.ptr, index, value)` — one generic
call passing the whole Value struct. -/
def Stack.store_def1 (index : Nat) (v : Value) : List FFICall :=
  [.stack_store index v.kind v.bits]

/-- The SECOND `Stack.store` definition in the class body (source lines
307-313): dispatches on `value.kind`, passing `value.value` to the
kind-specialized foreign function.  In the INTEGER branch `value.value`
evaluates to the `integer` field read, in the FLOAT branch to the `float`
field read, and in the remaining branch to the `size` field read (the guards
of `Value.value` coincide with the dispatch guards). -/
def Stack.store_def2 (index : Nat) (v : Value) : List FFICall :=
  if v.kind = ValueType.INTEGER then
    [.stack_store_int index v.readInteger]
  else if v.kind = ValueType.FLOAT then
    [.stack_store_float index v.readFloat]
  else
    [.stack_store_address index v.kind v.readSize]

/-- The `store` attribute bindings of the `Stack` class body, in source
order.  A Python class body executes its statements sequentially into the
class dict, so a later `def store` rebinds the name; the other methods of the
class bind distinct names and cannot affect the lookup of `"store"`. -/
def Stack.storeBindings : List (String × (Nat → Value → List FFICall)) :=
  [("store", Stack.store_def1), ("store", Stack.store_def2)]

/-- Python class-dict attribute resolution: the LAST binding of a name in
the class body wins. -/
def resolveAttr (body : List (String × (Nat → Value → List FFICall)))
    (name : String) : Option (Nat → Value → List FFICall) :=
  ((body.filter (fun p => p.1 == name)).map (fun p => p.2)).getLast?

/-- The effective `Stack.store` method: the result of resolving `"store"`
against the class body (falling back to an empty trace if the name were
unbound, which it is not). -/
def Stack.store_effective : Nat → Value → List FFICall :=
  match resolveAttr Stack.storeBindings "store" with
  | some f => f
  | none => fun _ _ => []

/-- The `Stack.push` method (source lines 315-321): dispatch on
`value.kind` to `stackvm_stack_push_int` / `_float` / `_address`, passing
`value.value` (which evaluates to the field read shown in each branch). -/
def Stack.push_calls (v : Value) : List FFICall :=
  if v.kind = ValueType.INTEGER then
    [.stack_push_int v.readInteger]
  else if v.kind = ValueType.FLOAT then
    [.stack_push_float v.readFloat]
  else
    [.stack_push_address v.kind v.readSize]

/-- Modelled from the spec: the native operand stack (missing native code)
is "a growable ordered sequence of Value, addressed by 0-based index; push
appends at the end, pop removes the end, load/store operate on indices
within current bounds."  Each foreign call's effect on the sequence. -/
def applyFFICall (c : FFICall) (st : List Value) : List Value :=
  match c with
  | .stack_store i k b => st.set i { kind := k % 256, bits := b % two64 }
  | .stack_store_int i n => st.set i (stackvm_value_int n)
  | .stack_store_float i b => st.set i (stackvm_value_float b)
  | .stack_store_address i k n => st.set i (stackvm_value_size k n)
  | .stack_push_int n => st ++ [stackvm_value_int n]
  | .stack_push_float b => st ++ [stackvm_value_float b]
  | .stack_push_address k n => st ++ [stackvm_value_size k n]

/-- Run a trace of foreign calls against the native stack. -/
def runFFICalls (cs : List FFICall) (st : List Value) : List Value :=
  cs.foldl (fun s c => applyFFICall c s) st

/-- Modelled from the spec: `stackvm_stack_get_len` (missing native code) —
the current element count. -/
def stackvm_stack_get_len (st : List Value) : Nat := st.length

/-- Modelled from the spec: `stackvm_stack_load` (missing native code) —
"load(index) → Value (index must be < length, else erroneous)". -/
def stackvm_stack_load (st : List Value) (i : Nat) : Option Value := st[i]?

/-- Modelled from the spec: `stackvm_stack_pop` (missing native code) —
"pop() → Value (removes and returns the last element, erroneous on an empty
stack)". -/
def stackvm_stack_pop (st : List Value) : Option (Value × List Value) :=
  match st.getLast? with
  | none => none
  | some v => some (v, st.dropLast)

/-- The state transformation of the binding's `Stack.push`. -/
def Stack.push (st : List Value) (v : Value) : List Value :=
  runFFICalls (Stack.push_calls v) st

/-- The state transformation of the binding's (effective) `Stack.store`. -/
def Stack.store (st : List Value) (index : Nat) (v : Value) : List Value :=
  runFFICalls (Stack.store_effective index v) st

/-- The binding's `Stack.load` (source lines 301-302): a direct call to the
native load. -/
def Stack.load (st : List Value) (index : Nat) : Option Value :=
  stackvm_stack_load st index

/-- The binding's `Stack.pop` (source lines 323-324): a direct call to the
native pop. -/
def Stack.pop (st : List Value) : Option (Value × List Value) :=
  stackvm_stack_pop st

/-! ## Diagnostic text: the length-out-parameter convention -/

/-- What a native diagnostic accessor hands back across the boundary: the
value it wrote through the `c_size_t` length out-parameter, and the bytes at
the returned `c_char_p` (already NUL-terminated C string content). -/
structure NativeStr where
  len : Nat
  bytes : List Nat
  deriving Repr, DecidableEq

/-- Decoding a byte list into a Python string (the `.decode()` step). -/
def decodeBytes (b : List Nat) : String :=
  String.mk (b.map Char.ofNat)

/-- Encoding a string as bytes (the inverse marshalling direction). -/
def encodeBytes (s : String) : List Nat :=
  s.data.map Char.toNat

/-- The string a wrapper extracts from a native result: the first `len`
bytes, truncated at the first NUL (`create_string_buffer(ptr, len).value`),
then decoded. -/
def readLenBytes (res : NativeStr) : String :=
  decodeBytes ((res.bytes.take res.len).takeWhile (fun b => b ≠ 0))

/-- `Parser.get_err_message` (source lines 100-108): reads the native
result through the length out-parameter; a positive out-length yields the
decoded string, a zero out-length yields `None`. -/
def Parser.get_err_message (res : NativeStr) : Option String :=
  if res.len > 0 then some (readLenBytes res) else none

/-- `Parser.get_current_line` (source lines 110-118): same
length-out-parameter pattern. -/
def Parser.get_current_line (res : NativeStr) : Option String :=
  if res.len > 0 then some (readLenBytes res) else none

/-- `Parser.get_source_span` (source lines 120-128): same
length-out-parameter pattern. -/
def Parser.get_source_span (res : NativeStr) : Option String :=
  if res.len > 0 then some (readLenBytes res) else none

/-- `VirtualMachine.err_message` (source lines 184-193): same
length-out-parameter pattern. -/
def VirtualMachine.err_message (res : NativeStr) : Option String :=
  if res.len > 0 then some (readLenBytes res) else none

/-! ## Parser.parse -/

/-- The `TextPosition` struct: three `c_uint32` zero-based counters. -/
structure TextPosition where
  line : Nat
  column : Nat
  offset : Nat
  deriving Repr, DecidableEq

/-- A `Reader` wraps the non-null bytecode buffer address returned by a
successful native parse. -/
structure Reader where
  ptr : Nat
  deriving Repr, DecidableEq

/-- Modelled from the spec: the observable outcome of the native
`stackvm_parser_parse` and the parser's post-parse query state (missing
native code).  `parseResult` is the returned `c_void_p` (0, i.e. null/falsy,
exactly on failure); `errMessage` is what `stackvm_parser_get_err_message`
reports afterwards and `position` what `stackvm_parser_get_position`
reports ("the diagnostic message and the TextPosition at the failure point
are retained"). -/
structure ParserNative where
  parseResult : Nat
  errMessage : NativeStr
  position : TextPosition
  deriving Repr, DecidableEq

/-- Python f-string rendering of a possibly-`None` message object. -/
def formatPyOpt : Option String → String
  | some s => s
  | none => "None"

/-- `Parser.parse` (source lines 130-139): null native result raises an
exception whose message interpolates `get_err_message()` and the stop
position rendered 1-based; a non-null result is wrapped in a `Reader`. -/
def Parser.parse (p : ParserNative) : Except String Reader :=
  if p.parseResult = 0 then
    .error (formatPyOpt (Parser.get_err_message p.errMessage) ++
      " (line " ++ Nat.repr (p.position.line + 1) ++
      ", column " ++ Nat.repr (p.position.column + 1) ++ ")")
  else
    .ok { ptr := p.parseResult }

/-! ## SourceMap -/

/-- The `InstructionSpan` struct: an instruction index (`c_size_t`) and its
source range (`end` is a Lean keyword, hence `end_`). -/
structure InstructionSpan where
  instruction : Nat
  start : TextPosition
  end_ : TextPosition
  deriving Repr, DecidableEq

/-- Modelled from the spec: the SourceMap's recording pass during
compilation (missing native code) — "for each emitted instruction, records
its [start, end) source-text span and inserts an InstructionSpan into the
SourceMap keyed by the instruction's index, then advances the instruction
counter."  `counter` is the running `current_instruction`. -/
def buildSourceMapFrom (counter : Nat) :
    List (TextPosition × TextPosition) → List InstructionSpan
  | [] => []
  | (s, e) :: rest => ⟨counter, s, e⟩ :: buildSourceMapFrom (counter + 1) rest

/-- The SourceMap contents produced by a successful parse emitting the given
spans in order, starting from instruction counter 0. -/
def buildSourceMap (emitted : List (TextPosition × TextPosition)) :
    List InstructionSpan :=
  buildSourceMapFrom 0 emitted

/-- Modelled from the spec: `stackvm_sourcemap_find` (missing native code)
— keyed lookup in the ordered index ("`find(i)` answers what source
produced instruction i; absence of a key means no span was recorded").  The
ordered structure is represented as the key-ordered sequence of entries. -/
def stackvm_sourcemap_find (sm : List InstructionSpan) (pos : Nat) :
    Option InstructionSpan :=
  sm.find? (fun s => s.instruction == pos)

/-- The binding's `SourceMap.find` (source lines 64-70): returns the
out-parameter span when the native find reports success, `None`
otherwise. -/
def SourceMap.find (sm : List InstructionSpan) (pos : Nat) :
    Option InstructionSpan :=
  stackvm_sourcemap_find sm pos

/-! ## VirtualMachine.init: call site vs ctypes declaration -/

/-- The ctypes argument types a foreign function is declared with. -/
inductive CType where
  | void_p
  | char_p
  | size_t
  | int32
  | uint8
  | double
  deriving Repr, DecidableEq

/-- The `argtypes` list of `stackvm_init` (source line 201):
`declare( lib.stackvm_init, [c_void_p], c_void_p )`. -/
def stackvm_init_argtypes : List CType :=
  [CType.void_p]

/-- The arguments of a call into the native library, named after the Python
expressions at the call site. -/
inductive CallArg where
  | global_allocator
  | reader_ptr
  deriving Repr, DecidableEq

/-- The actual arguments `VirtualMachine.init` passes to `stackvm_init`
(source line 170): `lib.stackvm_init(global_allocator, reader.ptr)`. -/
def VirtualMachine.init_call_args : List CallArg :=
  [CallArg.global_allocator, CallArg.reader_ptr]

/-! ## VirtualMachine execution

Modelled from the spec (missing native code): the fetch-decode-execute loop
of § 4.3.  "The loop fetches the instruction at code_pointer, decodes it, and
executes its effect, then advances code_pointer unless the instruction itself
redirected it.  The loop terminates when: a designated halt instruction
executes (Halted, success); code_pointer advances past the end of the Reader
(Halted, treated as normal program end); or a run-time fault is detected
(Faulted, failure)."  The spec leaves the instruction set open (it is a
non-goal); the loop is modelled over a representative set exercising the
spec's fault classes: stack underflow, Value kind mismatch, and arithmetic
faults (division by zero). -/

/-- The four word-sized registers (source lines 207-250 expose get/set for
each; `init` zeroes all of them). -/
structure Registers where
  frame_pointer : Nat
  global_pointer : Nat
  code_pointer : Nat
  stack_pointer : Nat
  deriving Repr, DecidableEq

/-- A representative decoded instruction. -/
inductive Instr where
  | push (v : Value)
  | add
  | div
  | halt
  deriving Repr, DecidableEq

/-- Postmortem fault data: the instruction index recorded for
`last_instruction`, the retained error text, and the machine state left
inspectable (Registers and Stack). -/
structure FaultInfo where
  lastInstruction : Nat
  errMessage : NativeStr
  registers : Registers
  stack : List Value
  deriving Repr, DecidableEq

/-- Outcome of running the loop with a fuel bound (the native loop has no
fuel; `outOfFuel` only marks that the bound was hit before termination). -/
inductive ExecResult where
  | halted (regs : Registers) (stack : List Value)
  | faulted (f : FaultInfo)
  | outOfFuel (regs : Registers) (stack : List Value)
  deriving Repr, DecidableEq

/-- Build the fault record at the moment of fault: `last_instruction`
records the code_pointer, the message is retained as bytes, and the
registers and stack are kept for postmortem inspection. -/
def mkFault (cp : Nat) (msg : String) (regs : Registers)
    (stack : List Value) : FaultInfo :=
  { lastInstruction := cp
    errMessage := { len := (encodeBytes msg).length, bytes := encodeBytes msg }
    registers := regs
    stack := stack }

/-- 32-bit wrap-around signed addition, as native integer arithmetic
performs it. -/
def int32add (a b : Int) : Int :=
  toInt32 (uint32pattern (a + b))

/-- 32-bit signed division (the divisor is checked non-zero before use). -/
def int32div (a b : Int) : Int :=
  toInt32 (uint32pattern (a / b))

/-- Modelled from the spec: the fetch-decode-execute loop (missing native
code).  Fetching past the end of the Reader halts normally; `halt` halts
with success; arithmetic pops two operands (underflow faults), checks both
are Integer-kind (mismatch faults), and `div` additionally faults on a zero
divisor.  Faults record the code_pointer at the moment of fault. -/
def run (prog : List Instr) : Nat → Registers → List Value → ExecResult
  | 0, regs, stack => .outOfFuel regs stack
  | fuel + 1, regs, stack =>
    match prog[regs.code_pointer]? with
    | none => .halted regs stack
    | some instr =>
      match instr with
      | .halt => .halted regs stack
      | .push v =>
        run prog fuel { regs with code_pointer := regs.code_pointer + 1 }
          (stack ++ [v])
      | .add =>
        match stackvm_stack_pop stack with
        | none =>
          .faulted (mkFault regs.code_pointer "stack underflow" regs stack)
        | some (b, st1) =>
          match stackvm_stack_pop st1 with
          | none =>
            .faulted (mkFault regs.code_pointer "stack underflow" regs st1)
          | some (a, st2) =>
            if a.kind = ValueType.INTEGER ∧ b.kind = ValueType.INTEGER then
              run prog fuel { regs with code_pointer := regs.code_pointer + 1 }
                (st2 ++ [stackvm_value_int (int32add a.readInteger b.readInteger)])
            else
              .faulted (mkFault regs.code_pointer "value kind mismatch" regs stack)
      | .div =>
        match stackvm_stack_pop stack with
        | none =>
          .faulted (mkFault regs.code_pointer "stack underflow" regs stack)
        | some (b, st1) =>
          match stackvm_stack_pop st1 with
          | none =>
            .faulted (mkFault regs.code_pointer "stack underflow" regs st1)
          | some (a, st2) =>
            if a.kind = ValueType.INTEGER ∧ b.kind = ValueType.INTEGER then
              if b.readInteger = 0 then
                .faulted (mkFault regs.code_pointer "division by zero" regs stack)
              else
                run prog fuel { regs with code_pointer := regs.code_pointer + 1 }
                  (st2 ++ [stackvm_value_int (int32div a.readInteger b.readInteger)])
            else
              .faulted (mkFault regs.code_pointer "value kind mismatch" regs stack)

/-- The `VirtualMachine.execute` wrapper (source lines 195-199): a false
native success flag raises an exception carrying `self.err_message` (read
through the length-out-parameter convention). -/
def VirtualMachine.execute_py (res : ExecResult) : Except (Option String) Unit :=
  match res with
  | .faulted f => .error (VirtualMachine.err_message f.errMessage)
  | _ => .ok ()

/-- The `VirtualMachine.last_instruction` property (source lines 180-182),
read from the faulted machine. -/
def VirtualMachine.last_instruction (f : FaultInfo) : Nat :=
  f.lastInstruction

/-! ## Helper lemmas -/

/-- Marshalling a 32-bit pattern to `c_int32` and back is the identity. -/
theorem uint32pattern_toInt32 (m : Nat) (h : m < two32) :
    uint32pattern (toInt32 m) = m := by
  unfold uint32pattern toInt32 two32 at *
  split <;> omega

/-- A `c_int32` field read is invariant under remarshalling through
`stackvm_value_int`. -/
theorem readInteger_value_int (v : Value) :
    (stackvm_value_int v.readInteger).readInteger = v.readInteger := by
  unfold stackvm_value_int Value.readInteger
  simp only
  rw [uint32pattern_toInt32 (v.bits % two32) (Nat.mod_lt _ (by decide))]
  congr 1
  unfold two32
  omega

/-- Reducing mod 2^64 is idempotent. -/
theorem mod_two64_idem (n : Nat) : n % two64 % two64 = n % two64 := by
  unfold two64
  omega

/-- Popping after an append returns the appended element and the original
sequence. -/
theorem pop_append (st : List Value) (x : Value) :
    stackvm_stack_pop (st ++ [x]) = some (x, st) := by
  unfold stackvm_stack_pop
  rw [List.getLast?_concat, List.dropLast_concat]

/-! ## Claims -/

/-- Claim C1: constructing a Value of kind None fails for every payload:
`Value.init` with the NONE kind returns the construction error and no Value,
while any other kind returns a constructed Value. -/
theorem value_init_none_always_fails (payload : Nat) (ty : Nat)
    (hty : ty ≠ ValueType.NONE) :
    Value.init ValueType.NONE payload = .error "Cannot create value of type NONE" ∧
    ∃ v : Value, Value.init ty payload = .ok v := by
  constructor
  · simp [Value.init]
  · unfold Value.init
    rw [if_neg hty]
    by_cases h1 : ty = ValueType.INTEGER
    · rw [if_pos h1]; exact ⟨_, rfl⟩
    · rw [if_neg h1]
      by_cases h2 : ty = ValueType.FLOAT
      · rw [if_pos h2]; exact ⟨_, rfl⟩
      · rw [if_neg h2]; exact ⟨_, rfl⟩

/-- Witness for C1: payload 5, and the ADDRESS_HEAP kind on the success
side. -/
theorem value_init_none_always_fails_witness :
    Value.init ValueType.NONE 5 = .error "Cannot create value of type NONE" ∧
    ∃ v : Value, Value.init ValueType.ADDRESS_HEAP 5 = .ok v :=
  value_init_none_always_fails 5 ValueType.ADDRESS_HEAP (by decide)

/-- Claim C9: reading the `value` property of a NONE-kind Value does not
raise — the accessor is a total function that falls through to the else
branch and returns the raw `size` field, exactly as it does for the four
Address kinds. -/
theorem value_property_none_reads_size_field (v : Value)
    (h : v.kind = ValueType.NONE) :
    Value.value v = .int (v.readSize : Int) ∧
    ∀ w : Value,
      (w.kind = ValueType.ADDRESS_HEAP ∨ w.kind = ValueType.ADDRESS_STRING ∨
       w.kind = ValueType.ADDRESS_CODE ∨ w.kind = ValueType.ADDRESS_STACK) →
      Value.value w = .int (w.readSize : Int) := by
  constructor
  · unfold Value.value
    rw [h]
    rfl
  · intro w hw
    unfold Value.value
    rcases hw with h' | h' | h' | h' <;> rw [h'] <;> rfl

/-- Witness for C9: a NONE-kind value with payload 42, and an ADDRESS_HEAP
value with payload 7. -/
theorem value_property_none_reads_size_field_witness :
    Value.value { kind := ValueType.NONE, bits := 42 } = .int ((42 : Nat) : Int) ∧
    Value.value { kind := ValueType.ADDRESS_HEAP, bits := 7 } = .int ((7 : Nat) : Int) := by
  have h := value_property_none_reads_size_field
    { kind := ValueType.NONE, bits := 42 } rfl
  refine ⟨?_, ?_⟩
  · rw [h.1]; decide
  · rw [h.2 { kind := ValueType.ADDRESS_HEAP, bits := 7 } (Or.inl rfl)]; decide

/-- Claim C7: every diagnostic-text accessor follows the
length-out-parameter convention — it returns the decoded string exactly when
the out-length is positive and `None` exactly when the out-length is
zero. -/
theorem diagnostic_accessors_length_convention (res : NativeStr) :
    (Parser.get_err_message res = none ↔ res.len = 0) ∧
    (0 < res.len → Parser.get_err_message res = some (readLenBytes res)) ∧
    (Parser.get_current_line res = none ↔ res.len = 0) ∧
    (0 < res.len → Parser.get_current_line res = some (readLenBytes res)) ∧
    (Parser.get_source_span res = none ↔ res.len = 0) ∧
    (0 < res.len → Parser.get_source_span res = some (readLenBytes res)) ∧
    (VirtualMachine.err_message res = none ↔ res.len = 0) ∧
    (0 < res.len → VirtualMachine.err_message res = some (readLenBytes res)) := by
  unfold Parser.get_err_message Parser.get_current_line Parser.get_source_span
    VirtualMachine.err_message
  have hpos : ∀ _ : 0 < res.len,
      (if res.len > 0 then some (readLenBytes res) else none) =
        some (readLenBytes res) :=
    fun h => if_pos h
  have hiff : ((if res.len > 0 then some (readLenBytes res) else none) = none) ↔
      res.len = 0 := by
    by_cases h : res.len > 0
    · rw [if_pos h]
      constructor
      · intro hc
        exact absurd hc (Option.some_ne_none _)
      · intro hc
        omega
    · rw [if_neg h]
      constructor
      · intro _
        omega
      · intro _
        rfl
  exact ⟨hiff, hpos, hiff, hpos, hiff, hpos, hiff, hpos⟩

/-- Witness for C7: the positive-length implications at a concrete
single-byte message. -/
theorem diagnostic_accessors_length_convention_witness :
    (Parser.get_err_message { len := 1, bytes := [65] } = none ↔ (1 : Nat) = 0) ∧
    Parser.get_err_message { len := 1, bytes := [65] } =
      some (readLenBytes { len := 1, bytes := [65] }) := by
  have h := diagnostic_accessors_length_convention { len := 1, bytes := [65] }
  exact ⟨h.1, h.2.1 (by decide)⟩

/-- Claim C10 counterexample: the call site of `stackvm_init` inside
`VirtualMachine.init` passes two arguments while the ctypes declaration
lists one parameter, so the claimed count match is false. -/
theorem init_call_argc_counterexample :
    ¬ (VirtualMachine.init_call_args.length = stackvm_init_argtypes.length) := by
  decide

/-- Claim C10 (amended): `VirtualMachine.init` invokes `stackvm_init` with
two arguments (the global allocator and the reader's buffer pointer) while
the ctypes declaration specifies exactly one void-pointer parameter; the
call site's argument count does NOT match the declared argtypes. -/
theorem init_call_argc_mismatch :
    VirtualMachine.init_call_args = [CallArg.global_allocator, CallArg.reader_ptr] ∧
    VirtualMachine.init_call_args.length = 2 ∧
    stackvm_init_argtypes = [CType.void_p] ∧
    stackvm_init_argtypes.length = 1 ∧
    VirtualMachine.init_call_args.length ≠ stackvm_init_argtypes.length := by
  refine ⟨rfl, rfl, rfl, rfl, by decide⟩

/-- Claim C4: for any Value `v`, `push(v); pop()` returns a Value equal to
`v` in both kind tag and payload, and the stack's length after the pop equals
its length before the push (the kind byte is a `c_uint8`, hence below
256). -/
theorem stack_push_pop_roundtrip (st : List Value) (v : Value)
    (hk : v.kind < 256) :
    ∃ w rest, Stack.pop (Stack.push st v) = some (w, rest) ∧
      w.kind = v.kind ∧ w.value = v.value ∧ rest = st ∧
      rest.length = st.length := by
  by_cases h1 : v.kind = ValueType.INTEGER
  · have hpush : Stack.push st v = st ++ [stackvm_value_int v.readInteger] := by
      unfold Stack.push Stack.push_calls runFFICalls
      rw [if_pos h1]
      rfl
    refine ⟨stackvm_value_int v.readInteger, st, ?_, ?_, ?_, rfl, rfl⟩
    · rw [hpush]
      exact pop_append st _
    · rw [h1]
      rfl
    · calc (stackvm_value_int v.readInteger).value
          = .int ((stackvm_value_int v.readInteger).readInteger) := rfl
        _ = .int v.readInteger := by rw [readInteger_value_int]
        _ = v.value := by unfold Value.value; rw [if_pos h1]
  · by_cases h2 : v.kind = ValueType.FLOAT
    · have hpush : Stack.push st v = st ++ [stackvm_value_float v.readFloat] := by
        unfold Stack.push Stack.push_calls runFFICalls
        rw [if_neg h1, if_pos h2]
        rfl
      refine ⟨stackvm_value_float v.readFloat, st, ?_, ?_, ?_, rfl, rfl⟩
      · rw [hpush]
        exact pop_append st _
      · rw [h2]
        rfl
      · calc (stackvm_value_float v.readFloat).value
            = .float (v.readFloat % two64 % two64) := rfl
          _ = .float v.readFloat := by
              rw [mod_two64_idem]
              unfold Value.readFloat
              rw [mod_two64_idem]
          _ = v.value := by
              unfold Value.value
              rw [if_neg h1, if_pos h2]
    · have hpush : Stack.push st v = st ++ [stackvm_value_size v.kind v.readSize] := by
        unfold Stack.push Stack.push_calls runFFICalls
        rw [if_neg h1, if_neg h2]
        rfl
      have hkind : (stackvm_value_size v.kind v.readSize).kind = v.kind := by
        unfold stackvm_value_size
        exact Nat.mod_eq_of_lt hk
      refine ⟨stackvm_value_size v.kind v.readSize, st, ?_, hkind, ?_, rfl, rfl⟩
      · rw [hpush]
        exact pop_append st _
      · have hsz : (stackvm_value_size v.kind v.readSize).readSize = v.readSize := by
          unfold stackvm_value_size Value.readSize
          simp only
          rw [mod_two64_idem, mod_two64_idem]
        have hv : Value.value v = .int (v.readSize : Int) := by
          unfold Value.value
          rw [if_neg h1, if_neg h2]
        have hw : (stackvm_value_size v.kind v.readSize).value =
            .int (v.readSize : Int) := by
          unfold Value.value
          rw [hkind, if_neg h1, if_neg h2, hsz]
        rw [hw, hv]

/-- Witness for C4: pushing an ADDRESS_STACK value with payload 9 onto a
one-element stack and popping it back. -/
theorem stack_push_pop_roundtrip_witness :
    ∃ w rest,
      Stack.pop (Stack.push [{ kind := ValueType.INTEGER, bits := 3 }]
          { kind := ValueType.ADDRESS_STACK, bits := 9 }) = some (w, rest) ∧
      w.kind = ValueType.ADDRESS_STACK ∧
      w.value = Value.value { kind := ValueType.ADDRESS_STACK, bits := 9 } ∧
      rest = [{ kind := ValueType.INTEGER, bits := 3 }] ∧
      rest.length = 1 :=
  stack_push_pop_roundtrip [{ kind := ValueType.INTEGER, bits := 3 }]
    { kind := ValueType.ADDRESS_STACK, bits := 9 } (by decide)

/-- Class-dict resolution of `"store"` yields the second definition. -/
theorem store_effective_eq_def2 : Stack.store_effective = Stack.store_def2 := rfl

/-- Claim C5: for any index `i < length()` and any Value `v` (kind byte
below 256, as the `c_uint8` field enforces), `store(i, v)` followed by
`load(i)` returns `v` unchanged in kind tag and payload; in particular a
stored ADDRESS_HEAP value is never read back under a different Address
kind. -/
theorem stack_store_load_roundtrip (st : List Value) (i : Nat) (v : Value)
    (hi : i < st.length) (hk : v.kind < 256) :
    ∃ w, Stack.load (Stack.store st i v) i = some w ∧
      w.kind = v.kind ∧ w.value = v.value ∧
      (v.kind = ValueType.ADDRESS_HEAP →
        w.kind ≠ ValueType.ADDRESS_STACK ∧ w.kind ≠ ValueType.ADDRESS_STRING ∧
        w.kind ≠ ValueType.ADDRESS_CODE) := by
  by_cases h1 : v.kind = ValueType.INTEGER
  · have hstore : Stack.store st i v = st.set i (stackvm_value_int v.readInteger) := by
      unfold Stack.store
      rw [store_effective_eq_def2]
      unfold Stack.store_def2 runFFICalls
      rw [if_pos h1]
      rfl
    refine ⟨stackvm_value_int v.readInteger, ?_, ?_, ?_, ?_⟩
    · rw [hstore]
      unfold Stack.load stackvm_stack_load
      exact List.getElem?_set_eq_of_lt _ hi
    · rw [h1]
      rfl
    · calc (stackvm_value_int v.readInteger).value
          = .int ((stackvm_value_int v.readInteger).readInteger) := rfl
        _ = .int v.readInteger := by rw [readInteger_value_int]
        _ = v.value := by unfold Value.value; rw [if_pos h1]
    · intro hheap
      rw [h1] at hheap
      exact absurd hheap (by decide)
  · by_cases h2 : v.kind = ValueType.FLOAT
    · have hstore : Stack.store st i v = st.set i (stackvm_value_float v.readFloat) := by
        unfold Stack.store
        rw [store_effective_eq_def2]
        unfold Stack.store_def2 runFFICalls
        rw [if_neg h1, if_pos h2]
        rfl
      refine ⟨stackvm_value_float v.readFloat, ?_, ?_, ?_, ?_⟩
      · rw [hstore]
        unfold Stack.load stackvm_stack_load
        exact List.getElem?_set_eq_of_lt _ hi
      · rw [h2]
        rfl
      · calc (stackvm_value_float v.readFloat).value
            = .float (v.readFloat % two64 % two64) := rfl
          _ = .float v.readFloat := by
              rw [mod_two64_idem]
              unfold Value.readFloat
              rw [mod_two64_idem]
          _ = v.value := by
              unfold Value.value
              rw [if_neg h1, if_pos h2]
      · intro hheap
        rw [h2] at hheap
        exact absurd hheap (by decide)
    · have hstore : Stack.store st i v = st.set i (stackvm_value_size v.kind v.readSize) := by
        unfold Stack.store
        rw [store_effective_eq_def2]
        unfold Stack.store_def2 runFFICalls
        rw [if_neg h1, if_neg h2]
        rfl
      have hkind : (stackvm_value_size v.kind v.readSize).kind = v.kind := by
        unfold stackvm_value_size
        exact Nat.mod_eq_of_lt hk
      refine ⟨stackvm_value_size v.kind v.readSize, ?_, hkind, ?_, ?_⟩
      · rw [hstore]
        unfold Stack.load stackvm_stack_load
        exact List.getElem?_set_eq_of_lt _ hi
      · have hsz : (stackvm_value_size v.kind v.readSize).readSize = v.readSize := by
          unfold stackvm_value_size Value.readSize
          simp only
          rw [mod_two64_idem, mod_two64_idem]
        have hv : Value.value v = .int (v.readSize : Int) := by
          unfold Value.value
          rw [if_neg h1, if_neg h2]
        have hw : (stackvm_value_size v.kind v.readSize).value =
            .int (v.readSize : Int) := by
          unfold Value.value
          rw [hkind, if_neg h1, if_neg h2, hsz]
        rw [hw, hv]
      · intro hheap
        rw [hkind, hheap]
        refine ⟨by decide, by decide, by decide⟩

/-- Witness for C5: storing an ADDRESS_HEAP value with payload 11 at index
0 of a one-element stack and loading it back. -/
theorem stack_store_load_roundtrip_witness :
    ∃ w, Stack.load
        (Stack.store [{ kind := ValueType.INTEGER, bits := 3 }] 0
          { kind := ValueType.ADDRESS_HEAP, bits := 11 }) 0 = some w ∧
      w.kind = ValueType.ADDRESS_HEAP ∧
      w.value = Value.value { kind := ValueType.ADDRESS_HEAP, bits := 11 } ∧
      (ValueType.ADDRESS_HEAP = ValueType.ADDRESS_HEAP →
        w.kind ≠ ValueType.ADDRESS_STACK ∧ w.kind ≠ ValueType.ADDRESS_STRING ∧
        w.kind ≠ ValueType.ADDRESS_CODE) :=
  stack_store_load_roundtrip [{ kind := ValueType.INTEGER, bits := 3 }] 0
    { kind := ValueType.ADDRESS_HEAP, bits := 11 } (by decide) (by decide)

/-- Claim C8: the class body binds `store` twice and the second definition
shadows the first, so the effective `store` dispatches on the value's kind
to the kind-specialized foreign entry points, and the generic
`stackvm_stack_store` foreign function is never invoked. -/
theorem stack_store_shadowing :
    resolveAttr Stack.storeBindings "store" = some Stack.store_def2 ∧
    (∀ i v c, c ∈ Stack.store_effective i v → c.isGenericStore = false) ∧
    (∀ i v, v.kind = ValueType.INTEGER →
      Stack.store_effective i v = [FFICall.stack_store_int i v.readInteger]) ∧
    (∀ i v, v.kind = ValueType.FLOAT →
      Stack.store_effective i v = [FFICall.stack_store_float i v.readFloat]) ∧
    (∀ i v, v.kind ≠ ValueType.INTEGER → v.kind ≠ ValueType.FLOAT →
      Stack.store_effective i v = [FFICall.stack_store_address i v.kind v.readSize]) := by
  refine ⟨rfl, ?_, ?_, ?_, ?_⟩
  · intro i v c hc
    rw [store_effective_eq_def2] at hc
    unfold Stack.store_def2 at hc
    by_cases h1 : v.kind = ValueType.INTEGER
    · rw [if_pos h1] at hc
      rw [List.mem_singleton] at hc
      rw [hc]
      rfl
    · rw [if_neg h1] at hc
      by_cases h2 : v.kind = ValueType.FLOAT
      · rw [if_pos h2] at hc
        rw [List.mem_singleton] at hc
        rw [hc]
        rfl
      · rw [if_neg h2] at hc
        rw [List.mem_singleton] at hc
        rw [hc]
        rfl
  · intro i v h1
    rw [store_effective_eq_def2]
    unfold Stack.store_def2
    rw [if_pos h1]
  · intro i v h2
    rw [store_effective_eq_def2]
    unfold Stack.store_def2
    rw [if_neg (by rw [h2]; decide), if_pos h2]
  · intro i v h1 h2
    rw [store_effective_eq_def2]
    unfold Stack.store_def2
    rw [if_neg h1, if_neg h2]

/-- Witness for C8: the effective store of an Integer-kind value issues
exactly the specialized `stackvm_stack_store_int` call, which is not the
generic entry point. -/
theorem stack_store_shadowing_witness :
    resolveAttr Stack.storeBindings "store" = some Stack.store_def2 ∧
    Stack.store_effective 0 { kind := ValueType.INTEGER, bits := 5 } =
      [FFICall.stack_store_int 0 5] ∧
    FFICall.isGenericStore (FFICall.stack_store_int 0 5) = false := by
  have h := stack_store_shadowing
  refine ⟨h.1, ?_, ?_⟩
  · have h3 := h.2.2.1 0 { kind := ValueType.INTEGER, bits := 5 } rfl
    rw [h3]
    decide
  · have h3 := h.2.2.1 0 { kind := ValueType.INTEGER, bits := 5 } rfl
    have hm : FFICall.stack_store_int 0
        (Value.readInteger { kind := ValueType.INTEGER, bits := 5 }) ∈
        Stack.store_effective 0 { kind := ValueType.INTEGER, bits := 5 } := by
      rw [h3]
      exact List.mem_singleton_self _
    have h4 := h.2.1 0 { kind := ValueType.INTEGER, bits := 5 } _ hm
    have h5 : Value.readInteger { kind := ValueType.INTEGER, bits := 5 } = 5 := by
      decide
    rw [h5] at h4
    exact h4

/-- Claim C2: when the native parse fails (null result) and the diagnostic
is retained, `Parser.parse` raises an exception whose message contains the
parser's error message together with the stop position rendered 1-based
(line + 1, column + 1); when the native parse succeeds, it returns a Reader
wrapping the finalized buffer. -/
theorem parser_parse_diagnostics (p : ParserNative) :
    (p.parseResult = 0 → 0 < p.errMessage.len →
      ∃ msg, Parser.get_err_message p.errMessage = some msg ∧
        Parser.parse p = .error (msg ++ " (line " ++
          Nat.repr (p.position.line + 1) ++ ", column " ++
          Nat.repr (p.position.column + 1) ++ ")")) ∧
    (p.parseResult ≠ 0 → Parser.parse p = .ok { ptr := p.parseResult }) := by
  constructor
  · intro h0 hlen
    have hmsg : Parser.get_err_message p.errMessage =
        some (readLenBytes p.errMessage) := by
      unfold Parser.get_err_message
      rw [if_pos hlen]
    refine ⟨readLenBytes p.errMessage, hmsg, ?_⟩
    unfold Parser.parse
    rw [if_pos h0, hmsg]
    rfl
  · intro h
    unfold Parser.parse
    rw [if_neg h]

/-- Witness for C2: an unknown-mnemonic failure at 0-based line 2, column
5 renders "(line 3, column 6)", and a non-null result wraps the buffer. -/
theorem parser_parse_diagnostics_witness :
    (∃ msg, Parser.get_err_message ⟨5, [111, 111, 112, 115, 33]⟩ = some msg ∧
      Parser.parse ⟨0, ⟨5, [111, 111, 112, 115, 33]⟩, ⟨2, 5, 9⟩⟩ =
        .error (msg ++ " (line " ++ Nat.repr 3 ++ ", column " ++
          Nat.repr 6 ++ ")")) ∧
    Parser.parse ⟨77, ⟨0, []⟩, ⟨0, 0, 0⟩⟩ = .ok ⟨77⟩ := by
  constructor
  · exact (parser_parse_diagnostics
      ⟨0, ⟨5, [111, 111, 112, 115, 33]⟩, ⟨2, 5, 9⟩⟩).1 rfl (by decide)
  · exact (parser_parse_diagnostics ⟨77, ⟨0, []⟩, ⟨0, 0, 0⟩⟩).2 (by decide)

/-- Keyed lookup in a SourceMap segment built from counter `c`: every key
in `[c, c + count)` is found with a span carrying exactly that key, every
key outside is absent. -/
theorem find_buildSourceMapFrom (es : List (TextPosition × TextPosition))
    (c i : Nat) :
    (c ≤ i → i < c + es.length →
      ∃ sp, stackvm_sourcemap_find (buildSourceMapFrom c es) i = some sp ∧
        sp.instruction = i) ∧
    (i < c ∨ c + es.length ≤ i →
      stackvm_sourcemap_find (buildSourceMapFrom c es) i = none) := by
  induction es generalizing c with
  | nil =>
    constructor
    · intro h1 h2
      simp only [List.length_nil] at h2
      omega
    · intro _
      rfl
  | cons hd tl ih =>
    obtain ⟨s, e⟩ := hd
    constructor
    · intro h1 h2
      by_cases hc : c = i
      · refine ⟨⟨c, s, e⟩, ?_, hc⟩
        show stackvm_sourcemap_find (⟨c, s, e⟩ :: buildSourceMapFrom (c + 1) tl) i =
          some ⟨c, s, e⟩
        unfold stackvm_sourcemap_find
        rw [List.find?_cons_of_pos _ (by simp only [beq_iff_eq]; exact hc)]
      · simp only [List.length_cons] at h2
        obtain ⟨sp, hsp, hinst⟩ := (ih (c + 1)).1 (by omega) (by omega)
        refine ⟨sp, ?_, hinst⟩
        show stackvm_sourcemap_find (⟨c, s, e⟩ :: buildSourceMapFrom (c + 1) tl) i =
          some sp
        unfold stackvm_sourcemap_find at hsp ⊢
        rw [List.find?_cons_of_neg _ (by simp only [beq_iff_eq]; exact hc)]
        exact hsp
    · intro h
      simp only [List.length_cons] at h
      show stackvm_sourcemap_find (⟨c, s, e⟩ :: buildSourceMapFrom (c + 1) tl) i = none
      have htl := (ih (c + 1)).2 (by omega)
      unfold stackvm_sourcemap_find at htl ⊢
      rw [List.find?_cons_of_neg _ (by simp only [beq_iff_eq]; omega)]
      exact htl

/-- Claim C6: for every instruction index actually produced during a
successful parse, `SourceMap.find` returns a span whose `instruction` field
equals that index; for every index at which no span was recorded, it
returns none. -/
theorem sourcemap_find_produced_index (es : List (TextPosition × TextPosition))
    (i : Nat) :
    (i < es.length →
      ∃ sp, SourceMap.find (buildSourceMap es) i = some sp ∧
        sp.instruction = i) ∧
    (es.length ≤ i → SourceMap.find (buildSourceMap es) i = none) := by
  have h := find_buildSourceMapFrom es 0 i
  constructor
  · intro hi
    exact h.1 (Nat.zero_le i) (by omega)
  · intro hi
    exact h.2 (Or.inr (by omega))

/-- Witness for C6: a two-instruction parse; index 1 is found with
`instruction = 1`, index 5 was never produced and yields none. -/
theorem sourcemap_find_produced_index_witness :
    (∃ sp, SourceMap.find (buildSourceMap
        [(⟨0, 0, 0⟩, ⟨0, 3, 3⟩), (⟨1, 0, 4⟩, ⟨1, 4, 8⟩)]) 1 = some sp ∧
      sp.instruction = 1) ∧
    SourceMap.find (buildSourceMap
        [(⟨0, 0, 0⟩, ⟨0, 3, 3⟩), (⟨1, 0, 4⟩, ⟨1, 4, 8⟩)]) 5 = none := by
  constructor
  · exact (sourcemap_find_produced_index _ 1).1 (by decide)
  · exact (sourcemap_find_produced_index _ 5).2 (by decide)

/-- A fault record built from a non-empty message retains a positive
out-length. -/
theorem mkFault_len_pos (cp : Nat) (msg : String) (regs : Registers)
    (st : List Value) (h : msg.data ≠ []) :
    0 < (mkFault cp msg regs st).errMessage.len := by
  unfold mkFault encodeBytes
  simp only
  rw [List.length_map]
  cases hm : msg.data with
  | nil => exact absurd hm h
  | cons a l => simp

/-- Faults raised by the execution loop always record an in-bounds
instruction index (the fault is detected while handling a successfully
fetched instruction), equal to the code_pointer at the moment of fault, and
retain a non-empty diagnostic. -/
theorem run_fault_invariant (prog : List Instr) (fuel : Nat) :
    ∀ regs stack f, run prog fuel regs stack = .faulted f →
      f.lastInstruction < prog.length ∧
      f.lastInstruction = f.registers.code_pointer ∧
      0 < f.errMessage.len := by
  induction fuel with
  | zero =>
    intro regs stack f h
    simp [run] at h
  | succ n ih =>
    intro regs stack f h
    cases hfetch : prog[regs.code_pointer]? with
    | none =>
      simp [run, hfetch] at h
    | some instr =>
      have hcp : regs.code_pointer < prog.length := by
        by_contra hge
        rw [List.getElem?_eq_none (by omega)] at hfetch
        exact Option.noConfusion hfetch
      cases instr with
      | halt =>
        simp [run, hfetch] at h
      | push v =>
        simp only [run, hfetch] at h
        exact ih _ _ _ h
      | add =>
        simp only [run, hfetch] at h
        split at h
        · injection h with h
          subst h
          exact ⟨hcp, rfl, mkFault_len_pos _ _ _ _ (by decide)⟩
        · split at h
          · injection h with h
            subst h
            exact ⟨hcp, rfl, mkFault_len_pos _ _ _ _ (by decide)⟩
          · split at h
            · exact ih _ _ _ h
            · injection h with h
              subst h
              exact ⟨hcp, rfl, mkFault_len_pos _ _ _ _ (by decide)⟩
      | div =>
        simp only [run, hfetch] at h
        split at h
        · injection h with h
          subst h
          exact ⟨hcp, rfl, mkFault_len_pos _ _ _ _ (by decide)⟩
        · split at h
          · injection h with h
            subst h
            exact ⟨hcp, rfl, mkFault_len_pos _ _ _ _ (by decide)⟩
          · split at h
            · split at h
              · injection h with h
                subst h
                exact ⟨hcp, rfl, mkFault_len_pos _ _ _ _ (by decide)⟩
              · exact ih _ _ _ h
            · injection h with h
              subst h
              exact ⟨hcp, rfl, mkFault_len_pos _ _ _ _ (by decide)⟩

/-- Claim C3: for any program (produced by a successful compile) the
execution either completes or faults; on a fault, `last_instruction` is
strictly below the Reader's length and equals the code_pointer at the moment
of fault, and the Python `execute()` wrapper raises an exception carrying a
non-`None` `err_message` (the Registers and Stack are retained inside the
fault record for postmortem inspection). -/
theorem execute_fault_reporting (prog : List Instr) (fuel : Nat)
    (regs : Registers) (stack : List Value) (f : FaultInfo)
    (h : run prog fuel regs stack = .faulted f) :
    VirtualMachine.last_instruction f < prog.length ∧
    VirtualMachine.last_instruction f = f.registers.code_pointer ∧
    ∃ s, VirtualMachine.execute_py (run prog fuel regs stack) =
      .error (some s) := by
  obtain ⟨h1, h2, h3⟩ := run_fault_invariant prog fuel regs stack f h
  refine ⟨h1, h2, readLenBytes f.errMessage, ?_⟩
  rw [h]
  show Except.error (VirtualMachine.err_message f.errMessage) =
    Except.error (some (readLenBytes f.errMessage))
  unfold VirtualMachine.err_message
  rw [if_pos h3]

/-- Witness for C3: a lone `add` on an empty stack faults at instruction 0
with a stack underflow. -/
theorem execute_fault_reporting_witness :
    VirtualMachine.last_instruction
        (mkFault 0 "stack underflow" ⟨0, 0, 0, 0⟩ []) < [Instr.add].length ∧
    VirtualMachine.last_instruction
        (mkFault 0 "stack underflow" ⟨0, 0, 0, 0⟩ []) =
      (mkFault 0 "stack underflow" ⟨0, 0, 0, 0⟩ []).registers.code_pointer ∧
    ∃ s, VirtualMachine.execute_py (run [Instr.add] 1 ⟨0, 0, 0, 0⟩ []) =
      .error (some s) :=
  execute_fault_reporting [Instr.add] 1 ⟨0, 0, 0, 0⟩ []
    (mkFault 0 "stack underflow" ⟨0, 0, 0, 0⟩ []) rfl

end StackVM
